import Mathlib

/-!
# Verification of the MRZ passport-extraction core

A shallow embedding, in Lean 4, of the OCR/MRZ core of the backend:

* `_parse_date_from_mrz`   (backend/ocr_service.py)  → `parseDateFromMrz`
* `_parse_passport_text`   (backend/ocr_service.py)  → `parsePassportText`
* `_parse_mrz_from_response` (backend/ocr_service.py) → `parseMrzFromResponse`
* the per-page result loop of `extract_data_page_by_page` → `processPages`
* `update_ocr_job_progress` / `update_ocr_job_complete` (backend/crud.py)
  → `updateOcrJobProgress` / `updateOcrJobComplete`
* the in-memory job finalization of `run_ocr_extraction_task` (backend/main.py)
  → `runTaskFinalize`

Strings are embedded as `List Char`; Python's `datetime.now().year % 100`
is passed in explicitly as a parameter `c` (the current two-digit year);
floating-point confidence values are embedded as rationals.
-/

namespace Mrz

/-! ## Character classes used by the MRZ line-2 anchor pattern -/

/-- `[A-Z]` — an ASCII uppercase letter. -/
def isUpperAlpha (ch : Char) : Bool := 'A' ≤ ch && ch ≤ 'Z'

/-- `[0-9]` — an ASCII digit. -/
def isDigitCh (ch : Char) : Bool := '0' ≤ ch && ch ≤ '9'

/-- `[A-Z0-9<]` — passport-number characters (group 1 of the anchor). -/
def isAZ09F (ch : Char) : Bool := isUpperAlpha ch || isDigitCh ch || ch = '<'

/-- `[0-9<]` — digit-or-filler characters (check digits and date groups). -/
def isDigF (ch : Char) : Bool := isDigitCh ch || ch = '<'

/-- `[MF<]` — the sex character (group 6 of the anchor). -/
def isSexCh (ch : Char) : Bool := ch = 'M' || ch = 'F' || ch = '<'

/-! ## Small string helpers (Python slicing / strip / split) -/

/-- Python slice `s[a:b]`. -/
def slice (s : List Char) (a b : Nat) : List Char := (s.drop a).take (b - a)

/-- Python `str.rstrip('<')`. -/
def rstripLt (s : List Char) : List Char := (s.reverse.dropWhile (· = '<')).reverse

/-- Python `str.strip()` (whitespace strip from both ends). -/
def stripWs (s : List Char) : List Char :=
  ((s.dropWhile Char.isWhitespace).reverse.dropWhile Char.isWhitespace).reverse

/-- Python `str.replace('<', ' ')` applied character-wise. -/
def ltToSpace (ch : Char) : Char := if ch = '<' then ' ' else ch

/-- Python `str.split('<<')`: left-to-right, non-overlapping. -/
def splitLtLt : List Char → List (List Char)
  | [] => [[]]
  | '<' :: '<' :: rest => [] :: splitLtLt rest
  | ch :: rest =>
    match splitLtLt rest with
    | h :: t => (ch :: h) :: t
    | [] => [[ch]]

/-- Python `str.split('\n')`. -/
def splitNl : List Char → List (List Char)
  | [] => [[]]
  | '\n' :: rest => [] :: splitNl rest
  | ch :: rest =>
    match splitNl rest with
    | h :: t => (ch :: h) :: t
    | [] => [[ch]]

/-- Python `str.find('FRA')`: index of the leftmost occurrence, `none` for -1. -/
def findFRA (s : List Char) : Option Nat :=
  (List.range (s.length + 1)).find? (fun k => slice s k (k + 3) = ['F', 'R', 'A'])

/-- Numeric value of a digit string (`int(...)` on an all-digit slice). -/
def digitsToNat (s : List Char) : Nat :=
  s.foldl (fun a ch => 10 * a + (ch.toNat - '0'.toNat)) 0

/-! ## Date decoder — `_parse_date_from_mrz` -/

/-- Gregorian leap year, as used by Python's `datetime`. -/
def isLeap (y : Nat) : Bool := (y % 4 = 0 && y % 100 ≠ 0) || y % 400 = 0

/-- Number of days in a month, as enforced by Python's `datetime` constructor. -/
def daysInMonth (y m : Nat) : Nat :=
  if m = 2 then (if isLeap y then 29 else 28)
  else if m = 4 || m = 6 || m = 9 || m = 11 then 30
  else 31

/-- Validity of `datetime(y, m, d)` (the year range is never violated here,
since the decoder only produces years in 1900–2099). -/
def validDate (y m d : Nat) : Bool :=
  1 ≤ m && m ≤ 12 && 1 ≤ d && d ≤ daysInMonth y m

/-- The century-resolution rule of `_parse_date_from_mrz`:
`1900 + yy` when `yy > current_year_short + 15`, else `2000 + yy`. -/
def resolveYear (c yy : Nat) : Nat :=
  if yy > c + 15 then 1900 + yy else 2000 + yy

/-- `_parse_date_from_mrz(date_str)` (backend/ocr_service.py, lines 42–61).
`c` stands for Python's `datetime.now().year % 100`.  Returns the decoded
`(year, month, day)` triple (the source formats it as `YYYY-MM-DD`), or
`none` where the source returns `None`. -/
def parseDateFromMrz (c : Nat) (dateStr : List Char) : Option (Nat × Nat × Nat) :=
  let t := dateStr.filter (fun ch => ¬(ch = '<'))
  if t.length ≠ 6 ∨ ¬(t.all isDigitCh) then none
  else
    let yy := digitsToNat (slice t 0 2)
    let mm := digitsToNat (slice t 2 4)
    let dd := digitsToNat (slice t 4 6)
    let y := resolveYear c yy
    if validDate y mm dd then some (y, mm, dd) else none

/-! ## Field extractor — `_parse_passport_text` -/

/-- The result dictionary of `_parse_passport_text`; every field starts
out `None` and is filled in when derivable. Dates are kept as decoded
triples. -/
structure PassportData where
  first_name : Option (List Char)
  last_name : Option (List Char)
  passport_number : Option (List Char)
  birth_date : Option (Nat × Nat × Nat)
  delivery_date : Option (List Char)
  expiration_date : Option (Nat × Nat × Nat)
  nationality : Option (List Char)
deriving Repr, DecidableEq

/-- Normalization step `s = line_to_extract.replace(' ', '').replace('«', '<')`. -/
def normalize (s : List Char) : List Char :=
  (s.filter (fun ch => ¬(ch = ' '))).map (fun ch => if ch = '«' then '<' else ch)

/-- Whether the 28-character line-2 anchor pattern (`line2_pattern`) matches
the normalized string at position `i`: 9 × `[A-Z0-9<]`, `[0-9<]`, literal
`FRA`, 6 × `[0-9<]`, `[0-9<]`, `[MF<]`, 6 × `[0-9<]`, `[0-9<]`. -/
def matchAt (s : List Char) (i : Nat) : Bool :=
  decide (i + 28 ≤ s.length) &&
  (List.range 9).all (fun j => isAZ09F (s.getD (i + j) ' ')) &&
  isDigF (s.getD (i + 9) ' ') &&
  (s.getD (i + 10) ' ' = 'F') && (s.getD (i + 11) ' ' = 'R') && (s.getD (i + 12) ' ' = 'A') &&
  (List.range 6).all (fun j => isDigF (s.getD (i + 13 + j) ' ')) &&
  isDigF (s.getD (i + 19) ' ') &&
  isSexCh (s.getD (i + 20) ' ') &&
  (List.range 6).all (fun j => isDigF (s.getD (i + 21 + j) ' ')) &&
  isDigF (s.getD (i + 27) ' ')

/-- `line2_pattern.search(s)`: the leftmost match position of the anchor
(the pattern is fixed-width, so `re.search` returns the smallest start
index whose 28-character window matches). -/
def searchIdx (s : List Char) : Option Nat :=
  (List.range (s.length + 1)).find? (fun i => matchAt s i)

/-- The passport-number letter/digit correction of `_parse_passport_text`
(lines 93–98): for a 9-character raw number, `'1'` becomes `'I'` inside the
2-letter sub-range `raw[2:4]` only; any other length yields the
unresolvable marker `"---!!!---"`. -/
def fixPassportNumber (raw : List Char) : List Char :=
  if raw.length = 9 then
    slice raw 0 2 ++ (slice raw 2 4).map (fun ch => if ch = '1' then 'I' else ch) ++ slice raw 4 9
  else ['-', '-', '-', '!', '!', '!', '-', '-', '-']

/-- The exception message of `_parse_passport_text` when the anchor is
absent (the `MrzNotFound` failure of the spec). -/
def mrzNotFoundMsg : String := "Could not parse MRZ. Stable pattern (Passport/FRA/Dates) not found."

/-- `_parse_passport_text(line_to_extract)` (backend/ocr_service.py,
lines 63–114).  `c` is the ambient two-digit current year fed to the date
decoder.  `Except.error` models the raised `ValueError`. -/
def parsePassportText (c : Nat) (lineToExtract : List Char) : Except String PassportData :=
  let s := normalize lineToExtract
  match searchIdx s with
  | none => .error mrzNotFoundMsg
  | some i =>
    let passportRaw := (slice s i (i + 9)).filter (fun ch => ¬(ch = '<'))
    let nationality := slice s (i + 10) (i + 13)
    let birth := parseDateFromMrz c (slice s (i + 13) (i + 19))
    let expiry := parseDateFromMrz c (slice s (i + 21) (i + 27))
    let passportNum := fixPassportNumber passportRaw
    let line1Part := s.take i
    let namePart : List Char :=
      match findFRA line1Part with
      | some k => line1Part.drop (k + 3)
      | none => []
    let names : Option (List Char) × Option (List Char) :=
      if namePart = [] then (none, none)
      else
        let nameParts := splitLtLt (rstripLt namePart)
        let lastName := stripWs ((nameParts.headD []).map ltToSpace)
        let firstName :=
          if nameParts.length > 1 then
            some (stripWs ((List.intercalate [' '] nameParts.tail).map ltToSpace))
          else none
        (some lastName, firstName)
    .ok { first_name := names.2
          last_name := names.1
          passport_number := some passportNum
          birth_date := birth
          delivery_date := none
          expiration_date := expiry
          nationality := some nationality }

/-! ## Per-page parsing — `_parse_mrz_from_response` -/

/-- The part of a Vision API page response consumed by
`_parse_mrz_from_response`: an optional API error message, the page's
`full_text_annotation.text`, and the page's symbol confidences (floats in
the source, embedded as rationals). -/
structure PageInput where
  errorMsg : Option String
  fullText : List Char
  confidences : List ℚ
deriving Repr, DecidableEq

/-- A per-page outcome: `{"page_number": n, "data": ...}` on success
(with the `confidence_score` entry of the data dictionary split out), or
`{"page_number": n, "error": ...}` on failure. -/
inductive PageResult where
  | success (page_number : Nat) (data : PassportData) (confidence_score : ℚ)
  | failure (page_number : Nat) (error : String)
deriving Repr, DecidableEq

/-- The MRZ-line concatenation loop of `_parse_mrz_from_response`
(lines 182–191): a space between two uppercase neighbours becomes `<`,
any other space is dropped, everything else is kept. -/
def fixLine (l : List Char) : List Char :=
  (List.range l.length).filterMap (fun j =>
    match l.getD j ' ' with
    | ' ' =>
      if 0 < j ∧ j + 1 < l.length ∧ (l.getD (j - 1) ' ').isUpper ∧ (l.getD (j + 1) ' ').isUpper
      then some '<' else none
    | ch => some ch)

/-- Lines 179–191 of `_parse_mrz_from_response`: keep the lines of the
full text that contain `'<'`, strip them, repair spaces with `fixLine`,
and concatenate. -/
def mrzConcat (text : List Char) : List Char :=
  List.flatten ((((splitNl text).filter (fun l => l.contains '<')).map stripWs).map fixLine)

/-- Arithmetic mean of the symbol confidences (`total_confidence /
symbol_count` when `symbol_count > 0`, else `0.0`). -/
def meanQ (l : List ℚ) : ℚ := if l.length = 0 then 0 else l.sum / l.length

/-- Python 3's `round(q, 4)`: round to the nearest multiple of `1/10000`,
ties to even. -/
def round4 (q : ℚ) : ℚ :=
  let x := q * 10000
  let f := ⌊x⌋
  let r := x - f
  let n : ℤ :=
    if r < 1/2 then f
    else if r > 1/2 then f + 1
    else if f % 2 = 0 then f else f + 1
  (n : ℚ) / 10000

/-- `_parse_mrz_from_response(response, page_num)` (backend/ocr_service.py,
lines 164–215).  Every exception of the source body is caught and turned
into a `failure` result, so the embedding is a total function. -/
def parseMrzFromResponse (c : Nat) (p : PageInput) (pageNum : Nat) : PageResult :=
  match p.errorMsg with
  | some m => .failure pageNum ("Google Vision API Error: " ++ m)
  | none =>
    if p.fullText = [] then .failure pageNum "No text detected on page."
    else
      let lineToExtract := mrzConcat p.fullText
      if lineToExtract = [] then .failure pageNum "No MRZ lines were found or concatenated."
      else
        match parsePassportText c lineToExtract with
        | .error e => .failure pageNum e
        | .ok d => .success pageNum d (round4 (meanQ p.confidences))

/-- The per-page result loop of `extract_data_page_by_page`
(backend/ocr_service.py, lines 293–319): the page responses, taken in
order (result blobs are sorted by name), are each fed to
`_parse_mrz_from_response` with 1-based page numbers, and every outcome is
appended to `all_results`. -/
def processPages (c : Nat) (pages : List PageInput) : List PageResult :=
  pages.enum.map (fun ip => parseMrzFromResponse c ip.2 (ip.1 + 1))

/-! ## Job progress and finalization — crud.py / main.py -/

/-- The job-progress fields of an OCR job record (`status`, `progress`). -/
structure OcrJobState where
  status : String
  progress : Nat
deriving Repr, DecidableEq

/-- `update_ocr_job_progress(db, job_id, progress)` (backend/crud.py,
lines 393–398): stores the given progress value. -/
def updateOcrJobProgress (j : OcrJobState) (progress : Nat) : OcrJobState :=
  { j with progress := progress }

/-- `update_ocr_job_complete(db, job_id, successes, failures)`
(backend/crud.py, lines 400–410): `status` is `"complete"` unless there
were zero successes and more than zero failures, and `progress` is set
to 100. -/
def updateOcrJobComplete (j : OcrJobState) (successes failures : List Nat) : OcrJobState :=
  { j with
    status := if ¬(successes.length = 0 ∧ failures.length > 0) then "complete" else "failed"
    progress := 100 }

/-- The in-memory finalization step of `run_ocr_extraction_task`
(backend/main.py, lines 141–147): after the per-page loop the job's
status is set to `"complete"` unconditionally — whatever the success and
failure lists are — and the progress field is not touched. -/
def runTaskFinalize (j : OcrJobState) (successes failures : List Nat) : OcrJobState :=
  let _ := successes
  let _ := failures
  { j with status := "complete" }

/-- Modelled from the spec: `record_page_result(index, total)` of the Job
Progress Tracker (§4.4).  No caller of `update_ocr_job_progress` computing
a percent from a page index exists under src/, so the percent computation
is taken from the spec's words: the percent advances within the fixed
75–95 band proportionally to `index/total`, and an update is emitted (via
`update_ocr_job_progress`) only when the computed percent strictly
increases. -/
def recordPageResult (j : OcrJobState) (index total : Nat) : OcrJobState :=
  let p := 75 + (20 * index) / total
  if j.progress < p then updateOcrJobProgress j p else j

/-- The anchor pattern as the spec words it — with a *generic* 3-letter
nationality code (any three uppercase letters) in place of the code's
hard-coded literal `FRA`.  This is the spec-side pattern used to state the
hypotheses of the claims about anchor absence; the code-side pattern is
`matchAt`. -/
def genericMatchAt (s : List Char) (i : Nat) : Bool :=
  decide (i + 28 ≤ s.length) &&
  (List.range 9).all (fun j => isAZ09F (s.getD (i + j) ' ')) &&
  isDigF (s.getD (i + 9) ' ') &&
  isUpperAlpha (s.getD (i + 10) ' ') && isUpperAlpha (s.getD (i + 11) ' ') &&
  isUpperAlpha (s.getD (i + 12) ' ') &&
  (List.range 6).all (fun j => isDigF (s.getD (i + 13 + j) ' ')) &&
  isDigF (s.getD (i + 19) ' ') &&
  isSexCh (s.getD (i + 20) ' ') &&
  (List.range 6).all (fun j => isDigF (s.getD (i + 21 + j) ' ')) &&
  isDigF (s.getD (i + 27) ' ')

/-! ## Witness inputs -/

/-- A full two-line MRZ (concatenated, as `_parse_passport_text` receives it)
whose parse succeeds with every field populated. -/
def wFullMrz : List Char := "P<FRADUPONT<<JEAN<<12AB456785FRA9001011M2501012".toList

/-- A bare anchor-only MRZ line 2: the pattern matches at position 0, so no
text precedes it and the name block is empty. -/
def wBareLine2 : List Char := "12AB456785FRA9001011M2501012".toList

/-- The fields `_parse_passport_text` extracts from `wFullMrz` (with the
ambient two-digit year 26). -/
def wData : PassportData :=
  { first_name := some "JEAN".toList
    last_name := some "DUPONT".toList
    passport_number := some "12AB45678".toList
    birth_date := some (1990, 1, 1)
    delivery_date := none
    expiration_date := some (2025, 1, 1)
    nationality := some "FRA".toList }

/-- A page response whose text parses successfully. -/
def wPageOk : PageInput := ⟨none, wFullMrz, []⟩

/-- A page response whose text contains an MRZ-ish line (`'<'` present)
but no anchor, so extraction fails for this page. -/
def wPageBad : PageInput := ⟨none, "NOMRZ<".toList, []⟩

/-- A successful page carrying two symbol confidences (mean `3/8`,
exactly representable at 4 decimals). -/
def wPageConf : PageInput := ⟨none, wFullMrz, [(1 : ℚ)/2, (1 : ℚ)/4]⟩

/-- A successful page carrying a single symbol confidence `0.12346`,
whose 4-decimal rounding differs from the mean itself. -/
def wPageConfCex : PageInput := ⟨none, wFullMrz, [(12346 : ℚ)/100000]⟩

end Mrz

namespace Mrz

/-! ## Helper lemmas -/

theorem matchAt_le (s : List Char) (i : Nat) (h : matchAt s i = true) :
    i + 28 ≤ s.length := by
  simp only [matchAt, Bool.and_eq_true, decide_eq_true_eq] at h
  exact h.1.1.1.1.1.1.1.1.1.1

theorem matchAt_FRA (s : List Char) (i : Nat) (h : matchAt s i = true) :
    s.getD (i + 10) ' ' = 'F' ∧ s.getD (i + 11) ' ' = 'R' ∧ s.getD (i + 12) ' ' = 'A' := by
  simp only [matchAt, Bool.and_eq_true, decide_eq_true_eq] at h
  exact ⟨h.1.1.1.1.1.1.1.2, h.1.1.1.1.1.1.2, h.1.1.1.1.1.2⟩

/-- The hard-coded `FRA` anchor is a special case of the spec-worded
anchor with a generic 3-letter code. -/
theorem matchAt_imp_generic (s : List Char) (i : Nat) (h : matchAt s i = true) :
    genericMatchAt s i = true := by
  simp only [matchAt, Bool.and_eq_true, decide_eq_true_eq] at h
  obtain ⟨⟨⟨⟨⟨⟨⟨⟨⟨⟨hA, hB⟩, hC⟩, hD1⟩, hD2⟩, hD3⟩, hE⟩, hF⟩, hG⟩, hH⟩, hI⟩ := h
  simp only [genericMatchAt, Bool.and_eq_true, decide_eq_true_eq]
  refine ⟨⟨⟨⟨⟨⟨⟨⟨⟨⟨hA, hB⟩, hC⟩, ?_⟩, ?_⟩, ?_⟩, hE⟩, hF⟩, hG⟩, hH⟩, hI⟩
  · rw [hD1]; decide
  · rw [hD2]; decide
  · rw [hD3]; decide

theorem searchIdx_matchAt (s : List Char) (i : Nat) (h : searchIdx s = some i) :
    matchAt s i = true :=
  List.find?_some h

theorem searchIdx_none_of (s : List Char)
    (h : ∀ i < s.length, genericMatchAt s i = false) : searchIdx s = none := by
  apply List.find?_eq_none.mpr
  intro i _
  intro hmatch
  by_cases hlt : i < s.length
  · have hg := matchAt_imp_generic s i hmatch
    rw [h i hlt] at hg
    exact Bool.false_ne_true hg
  · have := matchAt_le s i hmatch
    omega

theorem getD_drop (s : List Char) (a k : Nat) :
    (s.drop a).getD k ' ' = s.getD (a + k) ' ' := by
  simp [List.getD_eq_getElem?_getD, List.getElem?_drop]

theorem take3_getD (l : List Char) (h : 3 ≤ l.length) :
    l.take 3 = [l.getD 0 ' ', l.getD 1 ' ', l.getD 2 ' '] := by
  match l, h with
  | x :: y :: z :: t, _ => simp

theorem slice3_getD (s : List Char) (a : Nat) (h : a + 3 ≤ s.length) :
    slice s a (a + 3) = [s.getD a ' ', s.getD (a + 1) ' ', s.getD (a + 2) ' '] := by
  have h3 : 3 ≤ (s.drop a).length := by simp; omega
  have hs : slice s a (a + 3) = (s.drop a).take 3 := by simp [slice]
  rw [hs, take3_getD _ h3, getD_drop, getD_drop, getD_drop]
  simp

/-! ## Theorems -/

/-- **C4** (counterexample). The claim's century rule uses the threshold
`current_year_mod_100 + 10`; the code uses `+ 15`.  With a current
two-digit year of 24 and the date string `"360101"`, the two-digit year 36
strictly exceeds `24 + 10`, so the claim predicts the decoded year
`1900 + 36 = 1936`; the code decodes `2000 + 36 = 2036`. -/
theorem date_decoder_century_threshold_cex :
    36 > 24 + 10 ∧
    parseDateFromMrz 24 ['3', '6', '0', '1', '0', '1'] = some (2036, 1, 1) ∧
    (2036 : Nat) ≠ 1900 + 36 := by
  decide

/-- **C4** (amended). For every decoded date, the year is resolved with
threshold `current_year_mod_100 + 15`: two-digit years strictly above
`c + 15` become `19xx`, all others `20xx`. -/
theorem date_decoder_century_threshold (c : Nat) (s : List Char) (y m d : Nat)
    (h : parseDateFromMrz c s = some (y, m, d)) :
    y = (if digitsToNat (slice (s.filter (fun ch => ¬(ch = '<'))) 0 2) > c + 15
         then 1900 + digitsToNat (slice (s.filter (fun ch => ¬(ch = '<'))) 0 2)
         else 2000 + digitsToNat (slice (s.filter (fun ch => ¬(ch = '<'))) 0 2)) := by
  unfold parseDateFromMrz at h
  dsimp only at h
  split at h
  · exact absurd h (by simp)
  · split at h
    · simp only [Option.some.injEq, Prod.mk.injEq] at h
      obtain ⟨hy, -, -⟩ := h
      rw [← hy]
      rfl
    · exact absurd h (by simp)

/-- **C4** (witness): the amended rule evaluated at `c = 24`,
`"900101"` — `90 > 39`, so the decoded year is `1990`. -/
theorem date_decoder_century_threshold_witness :
    parseDateFromMrz 24 ['9', '0', '0', '1', '0', '1'] = some (1990, 1, 1) ∧
    (1990 : Nat) =
      (if digitsToNat (slice ((['9', '0', '0', '1', '0', '1'] : List Char).filter
          (fun ch => ¬(ch = '<'))) 0 2) > 24 + 15
       then 1900 + digitsToNat (slice ((['9', '0', '0', '1', '0', '1'] : List Char).filter
          (fun ch => ¬(ch = '<'))) 0 2)
       else 2000 + digitsToNat (slice ((['9', '0', '0', '1', '0', '1'] : List Char).filter
          (fun ch => ¬(ch = '<'))) 0 2)) :=
  ⟨by decide, date_decoder_century_threshold 24 ['9', '0', '0', '1', '0', '1'] 1990 1 1 (by decide)⟩

/-- **C5**. Passport-number correction: on a 9-character raw number the
digit `'1'` is replaced by `'I'` exactly at positions 2–3 (the 2-letter
sub-range); positions 0–1 and 4–8 are returned unaltered; any raw number
that is not exactly 9 characters long yields the unresolvable marker
`"---!!!---"` instead of a guess. -/
theorem passport_number_correction (a b e f g h i j k : Char)
    (raw : List Char) (hraw : raw.length ≠ 9) :
    fixPassportNumber [a, b, e, f, g, h, i, j, k] =
      [a, b, if e = '1' then 'I' else e, if f = '1' then 'I' else f, g, h, i, j, k] ∧
    fixPassportNumber raw = ['-', '-', '-', '!', '!', '!', '-', '-', '-'] := by
  constructor
  · simp [fixPassportNumber, slice]
  · simp [fixPassportNumber, hraw]

/-- **C5** (witness): the spec's example — raw `"121145678"` corrects to
`"12II45678"`; a 4-character raw number is marked unresolvable. -/
theorem passport_number_correction_witness :
    (['1', '2', '3', '4'] : List Char).length ≠ 9 ∧
    (fixPassportNumber ['1', '2', '1', '1', '4', '5', '6', '7', '8'] =
       ['1', '2', 'I', 'I', '4', '5', '6', '7', '8'] ∧
     fixPassportNumber ['1', '2', '3', '4'] = ['-', '-', '-', '!', '!', '!', '-', '-', '-']) := by
  refine ⟨by decide, ?_⟩
  have hh := passport_number_correction '1' '2' '1' '1' '4' '5' '6' '7' '8'
      ['1', '2', '3', '4'] (by decide)
  simpa using hh

/-- **C3** (counterexample). The finalization step that actually runs after
the per-page loop — lines 141–147 of `run_ocr_extraction_task`
(backend/main.py) — sets `status` to `"complete"` unconditionally: with
zero successes and two failures the claim requires `"failed"`, but the
code records `"complete"`, and the progress field is left where it was
(here 80) rather than being set to 100. -/
theorem run_task_finalize_always_complete :
    (runTaskFinalize ⟨"processing", 80⟩ [] [1, 2]).status = "complete" ∧
    (runTaskFinalize ⟨"processing", 80⟩ [] [1, 2]).status ≠ "failed" ∧
    (runTaskFinalize ⟨"processing", 80⟩ [] [1, 2]).progress = 80 := by
  refine ⟨rfl, ?_, rfl⟩
  decide

/-- **C3** (amended). The database-level finalization helper
`update_ocr_job_complete` (backend/crud.py, lines 400–410) implements the
claimed rule: `status` is `"failed"` iff there were zero successes and at
least one failure, `"complete"` in every other case, and `progress` is set
to 100.  The in-memory finalization of the background task itself
(`run_ocr_extraction_task`) does not: it sets `"complete"` unconditionally
(see the counterexample). -/
theorem finalize_status_rule (j : OcrJobState) (s f : List Nat) :
    ((updateOcrJobComplete j s f).status = "failed" ↔ s.length = 0 ∧ f.length > 0) ∧
    ((updateOcrJobComplete j s f).status = "complete" ↔ ¬(s.length = 0 ∧ f.length > 0)) ∧
    (updateOcrJobComplete j s f).progress = 100 := by
  unfold updateOcrJobComplete
  by_cases h : s.length = 0 ∧ f.length > 0 <;>
    simp [h, List.length_eq_zero, List.length_pos]

/-- **C7**. Modelled-from-spec `record_page_result` over the source's
`update_ocr_job_progress`: one recording step never decreases the stored
percent, and — as long as the job is at or below the 95 watermark — the
step keeps it at or below 95 (only `finalize` moves percent to 100). -/
theorem record_page_result_monotone_bounded (j : OcrJobState) (index total : Nat)
    (hi : index ≤ total) (ht : 0 < total) (h95 : j.progress ≤ 95) :
    j.progress ≤ (recordPageResult j index total).progress ∧
    (recordPageResult j index total).progress ≤ 95 := by
  unfold recordPageResult updateOcrJobProgress
  have hp : 75 + 20 * index / total ≤ 95 := by
    have h20 : 20 * index / total ≤ 20 := by
      calc 20 * index / total ≤ 20 * total / total :=
            Nat.div_le_div_right (Nat.mul_le_mul_left _ hi)
        _ = 20 := by rw [Nat.mul_comm]; exact Nat.mul_div_cancel_left 20 ht
    omega
  by_cases h : j.progress < 75 + 20 * index / total <;> simp [h] <;> omega

/-- **C8**. The date decoder is total (the source catches its own
`ValueError`) and returns a date exactly when the input, after filler
(`'<'`) removal, is exactly 6 digits that form a valid calendar date
(month and day valid for the resolved year, per Python's `datetime`
constructor); in every other case it returns `None`. -/
theorem date_decoder_some_iff_valid (c : Nat) (s : List Char) :
    (parseDateFromMrz c s).isSome = true ↔
      ((s.filter (fun ch => ¬(ch = '<'))).length = 6 ∧
       (s.filter (fun ch => ¬(ch = '<'))).all isDigitCh = true ∧
       validDate
         (resolveYear c (digitsToNat (slice (s.filter (fun ch => ¬(ch = '<'))) 0 2)))
         (digitsToNat (slice (s.filter (fun ch => ¬(ch = '<'))) 2 4))
         (digitsToNat (slice (s.filter (fun ch => ¬(ch = '<'))) 4 6)) = true) := by
  unfold parseDateFromMrz
  dsimp only
  split
  · next hbad =>
    simp only [Option.isSome_none, Bool.false_eq_true, false_iff]
    rintro ⟨h1, h2, -⟩
    rcases hbad with hb | hb
    · exact hb h1
    · exact hb h2
  · next hok =>
    rw [not_or, ne_eq, not_not, not_not] at hok
    split
    · next hv => exact iff_of_true rfl ⟨hok.1, hok.2, hv⟩
    · next hv => exact iff_of_false (by simp) (fun hc => hv hc.2.2)

/-- **C1** (counterexample). On the bare anchor-only input
`"12AB456785FRA9001011M2501012"` the anchor matches at position 0, no text
precedes it, so no name block exists — yet the extractor *returns* a
record (it does not fail), with `last_name` and `first_name` unset: it
returns partial data, and no `MrzIncomplete` failure exists anywhere in
the code. -/
theorem extractor_returns_partial_data :
    parsePassportText 26 wBareLine2 =
      .ok { first_name := none, last_name := none,
            passport_number := some ("12AB45678".toList),
            birth_date := some (1990, 1, 1), delivery_date := none,
            expiration_date := some (2025, 1, 1),
            nationality := some ("FRA".toList) } := by
  rfl

/-- **C1** (amended). The extractor performs no required-field check: it
succeeds exactly when the line-2 anchor is found, regardless of whether
the name block, the dates or the passport number could be derived —
underivable fields are simply left unset (or, for the passport number,
set to the `"---!!!---"` marker) in the returned record. -/
theorem extractor_succeeds_iff_anchor_found (c : Nat) (s : List Char) :
    (parsePassportText c s).isOk = (searchIdx (normalize s)).isSome := by
  unfold parsePassportText
  dsimp only
  cases searchIdx (normalize s) <;> rfl

/-- **C2**. If the normalized input (spaces stripped, `«` mapped to `<`)
contains no substring matching the anchor pattern as the spec words it —
with a generic 3-letter nationality code — then (a fortiori no `FRA`
window matches and) the extractor fails with the `MrzNotFound` error and
returns no fields. -/
theorem no_anchor_implies_mrz_not_found (c : Nat) (s : List Char)
    (h : ∀ i < (normalize s).length, genericMatchAt (normalize s) i = false) :
    parsePassportText c s = .error mrzNotFoundMsg := by
  unfold parsePassportText
  dsimp only
  rw [searchIdx_none_of _ h]

/-- **C2** (witness): `"HELLO"` matches the anchor pattern nowhere, and
the extractor fails with `MrzNotFound` on it. -/
theorem no_anchor_implies_mrz_not_found_witness :
    (∀ i < (normalize ("HELLO".toList)).length,
       genericMatchAt (normalize ("HELLO".toList)) i = false) ∧
    parsePassportText 26 ("HELLO".toList) = .error mrzNotFoundMsg :=
  ⟨by decide, no_anchor_implies_mrz_not_found 26 ("HELLO".toList) (by decide)⟩

/-- **C10**. Whenever the extractor succeeds, the returned nationality is
the constant `"FRA"`: the matched anchor window hard-codes `F`, `R`, `A`
at offsets 10–12, and group 3 is exactly that 3-character span. -/
theorem success_nationality_FRA (c : Nat) (s : List Char) (d : PassportData)
    (h : parsePassportText c s = .ok d) :
    d.nationality = some ['F', 'R', 'A'] := by
  unfold parsePassportText at h
  dsimp only at h
  split at h
  · exact Except.noConfusion h
  · next i hsi =>
    have hm := searchIdx_matchAt _ _ hsi
    have hb := matchAt_le _ _ hm
    obtain ⟨hF, hR, hA⟩ := matchAt_FRA _ _ hm
    simp only [Except.ok.injEq] at h
    subst h
    show some (slice (normalize s) (i + 10) (i + 13)) = _
    have h13 : i + 13 = (i + 10) + 3 := by omega
    rw [h13, slice3_getD _ _ (by omega)]
    rw [show (i + 10) + 1 = i + 11 from rfl, show (i + 10) + 2 = i + 12 from rfl]
    rw [hF, hR, hA]

/-- **C10** (witness): the full example MRZ parses successfully and its
nationality field is `"FRA"`. -/
theorem success_nationality_FRA_witness :
    parsePassportText 26 wFullMrz = .ok wData ∧ wData.nationality = some ['F', 'R', 'A'] :=
  ⟨by rfl, success_nationality_FRA 26 wFullMrz wData (by rfl)⟩

/-- **C6**. The per-page loop is total (every per-page exception is caught
inside `_parse_mrz_from_response`) and returns exactly one `PageResult`
per input page: the output has the input's length, and the result at
index `i` is exactly `_parse_mrz_from_response` applied to page `i` alone
with 1-based page number `i + 1` — so a failing page is recorded as that
page's error result and cannot drop, reorder or alter any other page's
result. -/
theorem process_pages_per_page (c : Nat) (pages : List PageInput) (i : Nat) (p : PageInput)
    (h : pages[i]? = some p) :
    (processPages c pages).length = pages.length ∧
    (processPages c pages)[i]? = some (parseMrzFromResponse c p (i + 1)) := by
  constructor
  · simp [processPages]
  · simp [processPages, List.getElem?_map, List.getElem?_enum, h]

/-- **C6** (witness): three pages where page 2 has no anchor — the output
has three entries and entry 2 is exactly page 2's own error result. -/
theorem process_pages_per_page_witness :
    ([wPageOk, wPageBad, wPageOk] : List PageInput)[1]? = some wPageBad ∧
    ((processPages 26 [wPageOk, wPageBad, wPageOk]).length =
       ([wPageOk, wPageBad, wPageOk] : List PageInput).length ∧
     (processPages 26 [wPageOk, wPageBad, wPageOk])[1]? =
       some (parseMrzFromResponse 26 wPageBad 2)) :=
  ⟨by rfl, process_pages_per_page 26 [wPageOk, wPageBad, wPageOk] 1 wPageBad (by rfl)⟩

/-- **C9** (counterexample). The reported `confidence_score` is the
*rounded* mean, not the mean: with a single symbol confidence `0.12346`
the page parses successfully with `confidence_score = 0.1235`, which
differs from the arithmetic mean `0.12346`. -/
theorem confidence_not_exact_mean :
    parseMrzFromResponse 26 wPageConfCex 1 =
      .success 1 wData (round4 (meanQ wPageConfCex.confidences)) ∧
    round4 (meanQ wPageConfCex.confidences) = (1235 : ℚ)/10000 ∧
    round4 (meanQ wPageConfCex.confidences) ≠ meanQ wPageConfCex.confidences := by
  have hm : meanQ wPageConfCex.confidences = (6173 : ℚ)/50000 := by
    norm_num [meanQ, wPageConfCex]
  have hf : ⌊((6173 : ℚ)/50000) * 10000⌋ = 1234 := by
    rw [Int.floor_eq_iff]
    norm_num
  have hr : round4 (meanQ wPageConfCex.confidences) = (1235 : ℚ)/10000 := by
    rw [hm]
    unfold round4
    dsimp only
    rw [hf]
    norm_num
  refine ⟨rfl, hr, ?_⟩
  rw [hr, hm]
  norm_num

/-- **C9** (amended). For every successfully parsed page, the reported
`confidence_score` equals the arithmetic mean of that page's
symbol-confidence values *rounded to 4 decimal places* (Python's
`round(mean, 4)`), and the mean is taken to be 0.0 when the page has no
symbol-confidence values. -/
theorem confidence_is_rounded_mean (c : Nat) (p : PageInput) (n m : Nat)
    (d : PassportData) (q : ℚ)
    (h : parseMrzFromResponse c p n = .success m d q) :
    q = round4 (meanQ p.confidences) ∧ meanQ ([] : List ℚ) = 0 := by
  refine ⟨?_, by simp [meanQ]⟩
  unfold parseMrzFromResponse at h
  split at h
  · exact PageResult.noConfusion h
  · split at h
    · exact PageResult.noConfusion h
    · dsimp only at h
      split at h
      · exact PageResult.noConfusion h
      · split at h
        · exact PageResult.noConfusion h
        · simp only [PageResult.success.injEq] at h
          exact h.2.2.symm

/-- **C9** (witness): a successful page with confidences `1/2` and `1/4`
reports score `3/8` — the rounded (here exact) mean. -/
theorem confidence_is_rounded_mean_witness :
    parseMrzFromResponse 26 wPageConf 1 =
      .success 1 wData (round4 (meanQ wPageConf.confidences)) ∧
    (round4 (meanQ wPageConf.confidences) = round4 (meanQ wPageConf.confidences) ∧
     meanQ ([] : List ℚ) = 0) :=
  ⟨by rfl,
   confidence_is_rounded_mean 26 wPageConf 1 1 wData
     (round4 (meanQ wPageConf.confidences)) (by rfl)⟩

/-- **C7** (witness): recording page 1 of 3 from percent 80 moves the
percent to 81 — non-decreasing and still at most 95. -/
theorem record_page_result_monotone_bounded_witness :
    (1 : Nat) ≤ 3 ∧ (0 : Nat) < 3 ∧
    (OcrJobState.mk "processing" 80).progress ≤ 95 ∧
    ((OcrJobState.mk "processing" 80).progress ≤
       (recordPageResult (OcrJobState.mk "processing" 80) 1 3).progress ∧
     (recordPageResult (OcrJobState.mk "processing" 80) 1 3).progress ≤ 95) :=
  ⟨by decide, by decide, by decide,
   record_page_result_monotone_bounded (OcrJobState.mk "processing" 80) 1 3
     (by decide) (by decide) (by decide)⟩

end Mrz
